import Mathlib

/-!
# Verification of the Minerva school-backend submission pipeline

Shallow embedding of the pipeline implemented in `src/server.js` (namespace `S`),
with the two variants cited by the specification: the PDF renderer with a
guardian section from `src/unnamed/part_001` (namespace `P1`) and the
write-then-attempt-send orchestrator from `src/unnamed/part_002`
(namespace `V2`).

JavaScript conventions are modelled explicitly: a form field is an
`Option String` (`none` = absent), string truthiness is "non-empty",
`x || 'N/A'` is `jsOr`, and the effectful orchestrators are pure functions
of an environment that records the outcome of each external effect
(transport availability, send success, PDF generation, filesystem writes).
-/

/-- JavaScript truthiness of a possibly-absent string field:
`undefined` and `""` are falsy, every other string is truthy. -/
def truthy : Option String → Bool
  | none => false
  | some s => s ≠ ""

/-- JavaScript `x || dflt` on a possibly-absent string: the default is
substituted when the value is absent or empty. -/
def jsOr (v : Option String) (dflt : String) : String :=
  match v with
  | none => dflt
  | some s => if s = "" then dflt else s

/-- `childName.replace(/[^a-z0-9]/gi, '_').toLowerCase()` from
`saveFormToFile`: non-alphanumeric characters become `_`, letters are
lowercased. -/
def sanitizeName (s : String) : String :=
  String.mk (s.toList.map (fun c => if c.isAlphanum then c.toLower else '_'))

/-- The admission form field mapping (`req.body` plus helpers); every field
is an optional string, as in the JavaScript object. -/
structure FormData where
  childName : Option String := none
  dateOfBirth : Option String := none
  sex : Option String := none
  bloodGroup : Option String := none
  contactType : Option String := none
  contactNumber : Option String := none
  classAdmission : Option String := none
  tcAttached : Option String := none
  howKnow : Option String := none
  fatherName : Option String := none
  fatherNationality : Option String := none
  fatherOccupation : Option String := none
  fatherOfficeAddress : Option String := none
  fatherDistance : Option String := none
  fatherPermanentAddress : Option String := none
  fatherIncome : Option String := none
  motherName : Option String := none
  motherNationality : Option String := none
  motherOccupation : Option String := none
  motherOfficeAddress : Option String := none
  motherDistance : Option String := none
  motherPermanentAddress : Option String := none
  motherIncome : Option String := none
  guardianName : Option String := none
  guardianNationality : Option String := none
  guardianOccupation : Option String := none
  guardianOfficeAddress : Option String := none
  guardianDistance : Option String := none
  guardianPermanentAddress : Option String := none
  guardianIncome : Option String := none
  deriving DecidableEq, Repr

/-- The contact form field mapping. -/
structure ContactData where
  name : Option String := none
  email : Option String := none
  phone : Option String := none
  message : Option String := none
  deriving DecidableEq, Repr

/-- `requiredFields` from the admission endpoint (identical in
`src/server.js`, `src/unnamed/part_001` and `src/unnamed/part_002`). -/
def requiredFields : List String :=
  ["childName", "dateOfBirth", "sex", "contactType", "contactNumber",
   "classAdmission", "tcAttached", "howKnow"]

/-- `formData[field]` for the field names the admission validator accesses. -/
def getField (d : FormData) : String → Option String
  | "childName" => d.childName
  | "dateOfBirth" => d.dateOfBirth
  | "sex" => d.sex
  | "contactType" => d.contactType
  | "contactNumber" => d.contactNumber
  | "classAdmission" => d.classAdmission
  | "tcAttached" => d.tcAttached
  | "howKnow" => d.howKnow
  | _ => none

/-- `requiredFields.filter(field => !formData[field])` — the admission
validator's missing-field list. -/
def missingOf (d : FormData) : List String :=
  requiredFields.filter (fun f => !truthy (getField d f))

/-- Split a character list at every occurrence of `sep` (ordinary split
semantics: `n` separators yield `n + 1` pieces, empty pieces included). -/
def splitOnChar (sep : Char) : List Char → List (List Char)
  | [] => [[]]
  | c :: rest =>
    match splitOnChar sep rest with
    | [] => if c = sep then [[], [c]] else [[c]]
    | h :: t => if c = sep then [] :: h :: t else (c :: h) :: t

/-- The JavaScript regex class `\s` (ECMAScript WhiteSpace plus
LineTerminator): tab, LF, vertical tab, form feed, CR, space, NBSP,
Ogham space mark, the U+2000–U+200A spaces, LS, PS, narrow NBSP,
medium mathematical space, ideographic space, and ZWNBSP. -/
def jsWhitespace (c : Char) : Bool :=
  c = '\u0009' || c = '\u000A' || c = '\u000B' || c = '\u000C' ||
  c = '\u000D' || c = '\u0020' || c = '\u00A0' || c = '\u1680' ||
  ('\u2000' ≤ c && c ≤ '\u200A') ||
  c = '\u2028' || c = '\u2029' || c = '\u202F' || c = '\u205F' ||
  c = '\u3000' || c = '\uFEFF'

/-- The contact email check `/^[^\s@]+@[^\s@]+\.[^\s@]+$/.test(email)`.
A string matches iff it has no `\s` character, exactly one `@`, a
non-empty local part, and the domain after the `@` contains some dot with
non-empty text on both sides — i.e. a dot strictly inside the domain
(`[^\s@]` itself admits dots, so the regex only pins one such split). -/
def matchesEmail (s : String) : Bool :=
  (s.toList.all fun c => !jsWhitespace c) &&
  match splitOnChar '@' s.toList with
  | [lpart, domain] =>
      lpart ≠ [] && (domain.drop 1).dropLast.contains '.'
  | _ => false

/-- A fully-filled valid admission submission used in concrete witnesses. -/
def sampleAdmission : FormData where
  childName := some "Asha Rao"
  dateOfBirth := some "2019-04-01"
  sex := some "Female"
  contactType := some "Mobile"
  contactNumber := some "9000000000"
  classAdmission := some "LKG"
  tcAttached := some "No"
  howKnow := some "Website"

/-- JavaScript `String.prototype.trim()`: strip leading and trailing
whitespace (structural implementation so that proofs can evaluate it). -/
def jsTrim (s : String) : String :=
  String.mk (((s.toList.dropWhile Char.isWhitespace).reverse.dropWhile
    Char.isWhitespace).reverse)

/-- One drawing command of the PDF renderer, at the vertical cursor position
it was emitted at.  `header` carries the stamped generation timestamp. -/
inductive RenderOp where
  | header (ts : String)
  | photoTitle (y : Nat)
  | photoImage (decoded : Bool)
  | pageBreak
  | sectionTitle (title : String) (y : Nat)
  | table (rows : List (String × String)) (y : Nat)
  deriving DecidableEq, Repr

/-- An uploaded photo buffer: its byte length and whether `doc.image` can
decode it (decode failure draws the placeholder text instead). -/
structure PhotoBuf where
  len : Nat
  decodable : Bool
  deriving DecidableEq, Repr

/-- `if (currentY > 700) { doc.addPage(); currentY = 50; }` — the page-break
check inserted before each section title. -/
def checkBreak (y : Nat) : List RenderOp × Nat :=
  if 700 < y then ([RenderOp.pageBreak], 50) else ([], y)

/-- An always-emitted section: page-break check, section title (cursor then
advances 25), and its table.  `createStyledTable` returns
`startY + 25 * (1 + rows.length)` and the caller adds 20. -/
def sectionPart (title : String) (rows : List (String × String)) (y : Nat) :
    List RenderOp × Nat :=
  let br := checkBreak y
  (br.1 ++ [RenderOp.sectionTitle title br.2, RenderOp.table rows (br.2 + 25)],
   br.2 + 25 + 25 * (1 + rows.length) + 20)

/-- A parental section guarded by the name field: when the guard holds, the
title is emitted after the page-break check, and the table only when the
filtered row list is non-empty. -/
def optionalSection (guard : Bool) (title : String)
    (rows : List (String × String)) (y : Nat) : List RenderOp × Nat :=
  if guard then
    let br := checkBreak y
    if rows ≠ [] then
      (br.1 ++ [RenderOp.sectionTitle title br.2,
                RenderOp.table rows (br.2 + 25)],
       br.2 + 25 + 25 * (1 + rows.length) + 20)
    else
      (br.1 ++ [RenderOp.sectionTitle title br.2], br.2 + 25)
  else ([], y)

/-- `formData.fatherName && formData.fatherName.trim()` — the guard that
decides whether a parental section is emitted at all. -/
def nameGuard (v : Option String) : Bool :=
  match v with
  | none => false
  | some s => s ≠ "" && jsTrim s ≠ ""

/-- The child-information rows (identical in both renderer variants). -/
def childRows (d : FormData) : List (String × String) :=
  [("Name of the Child", jsOr d.childName "N/A"),
   ("Date of Birth", jsOr d.dateOfBirth "N/A"),
   ("Sex", jsOr d.sex "N/A"),
   ("Blood Group", jsOr d.bloodGroup "N/A"),
   ("Contact Type", jsOr d.contactType "N/A"),
   ("Contact Number", jsOr d.contactNumber "N/A")]

/-- The academic-information rows (identical in both renderer variants). -/
def academicRows (d : FormData) : List (String × String) :=
  [("Class Seeking Admission", jsOr d.classAdmission "N/A"),
   ("TC Attached", jsOr d.tcAttached "N/A"),
   ("How did you know about us", jsOr d.howKnow "N/A")]

/-- `true` exactly on table drawing commands. -/
def isTableOp : RenderOp → Bool
  | RenderOp.table _ _ => true
  | _ => false

/-- The start cursor position of a table drawing command. -/
def tableYOf : RenderOp → Option Nat
  | RenderOp.table _ y => some y
  | _ => none

/-- The start cursor position of a section-title drawing command. -/
def titleYOf : RenderOp → Option Nat
  | RenderOp.sectionTitle _ y => some y
  | _ => none

/-- `true` exactly on the page-break command. -/
def isBreakOp : RenderOp → Bool
  | RenderOp.pageBreak => true
  | _ => false

/-- Count of emitted tables in a render trace. -/
def tableCount (ops : List RenderOp) : Nat :=
  (ops.filter isTableOp).length

/-- Start cursor positions of the emitted tables, in order. -/
def tableYs (ops : List RenderOp) : List Nat :=
  ops.filterMap tableYOf

/-- Start cursor positions of the emitted section titles, in order. -/
def titleYs (ops : List RenderOp) : List Nat :=
  ops.filterMap titleYOf

/-- `true` iff the trace contains a page break. -/
def hasPageBreak (ops : List RenderOp) : Bool :=
  ops.any isBreakOp

namespace S

/-- `row[1] && row[1] !== 'N/A'` — the row filter of the father/mother
tables in `src/server.js` (string truthiness is non-emptiness). -/
def keepRow (v : String) : Bool := v ≠ "" && v ≠ "N/A"

/-- The father rows of `src/server.js`: each value defaulted with
`|| 'N/A'` and then filtered against the literal `'N/A'`. -/
def fatherRows (d : FormData) : List (String × String) :=
  ([("Name", jsOr d.fatherName "N/A"),
    ("Nationality", jsOr d.fatherNationality "N/A"),
    ("Occupation", jsOr d.fatherOccupation "N/A"),
    ("Office Address", jsOr d.fatherOfficeAddress "N/A"),
    ("Distance from School", jsOr d.fatherDistance "N/A"),
    ("Permanent Address", jsOr d.fatherPermanentAddress "N/A"),
    ("Monthly Income", jsOr d.fatherIncome "N/A")]).filter
    (fun r => keepRow r.2)

/-- The mother rows of `src/server.js`, built exactly like the father rows. -/
def motherRows (d : FormData) : List (String × String) :=
  ([("Name", jsOr d.motherName "N/A"),
    ("Nationality", jsOr d.motherNationality "N/A"),
    ("Occupation", jsOr d.motherOccupation "N/A"),
    ("Office Address", jsOr d.motherOfficeAddress "N/A"),
    ("Distance from School", jsOr d.motherDistance "N/A"),
    ("Permanent Address", jsOr d.motherPermanentAddress "N/A"),
    ("Monthly Income", jsOr d.motherIncome "N/A")]).filter
    (fun r => keepRow r.2)

/-- The photo block of `src/server.js`: emitted only when a buffer is
present with positive length (`photoBuffer && photoBuffer.length > 0`);
the cursor then moves from 140 to 305, otherwise to 160. -/
def photoPart (p : Option PhotoBuf) : List RenderOp × Nat :=
  match p with
  | some pb =>
    if 0 < pb.len then
      ([RenderOp.photoTitle 140, RenderOp.photoImage pb.decodable], 305)
    else ([], 160)
  | none => ([], 160)

/-- The ordered drawing trace of `generatePDF` in `src/server.js`:
header, optional photo block, child section, optional father and mother
sections, academic section.  There is no guardian section in this file. -/
def renderTrace (ts : String) (d : FormData) (p : Option PhotoBuf) :
    List RenderOp :=
  let ph := photoPart p
  let child := sectionPart "CHILD INFORMATION" (childRows d) ph.2
  let father := optionalSection (nameGuard d.fatherName) "FATHER DETAILS"
    (fatherRows d) child.2
  let mother := optionalSection (nameGuard d.motherName) "MOTHER DETAILS"
    (motherRows d) father.2
  let acad := sectionPart "ACADEMIC INFORMATION" (academicRows d) mother.2
  RenderOp.header ts :: ph.1 ++ child.1 ++ father.1 ++ mother.1 ++ acad.1

end S

namespace P1

/-- Row filter of the `src/unnamed/part_001` renderer: the raw field value
(no `'N/A'` substitution) must be truthy with non-blank trim. -/
def parentRows (entries : List (String × Option String)) :
    List (String × String) :=
  entries.filterMap (fun e => match e.2 with
    | some s => if s ≠ "" && jsTrim s ≠ "" then some (e.1, s) else none
    | none => none)

/-- Father rows of the part_001 renderer. -/
def fatherRows (d : FormData) : List (String × String) :=
  parentRows
    [("Name", d.fatherName),
     ("Nationality", d.fatherNationality),
     ("Occupation", d.fatherOccupation),
     ("Office Address", d.fatherOfficeAddress),
     ("Distance from School", d.fatherDistance),
     ("Permanent Address", d.fatherPermanentAddress),
     ("Monthly Income", d.fatherIncome)]

/-- Mother rows of the part_001 renderer. -/
def motherRows (d : FormData) : List (String × String) :=
  parentRows
    [("Name", d.motherName),
     ("Nationality", d.motherNationality),
     ("Occupation", d.motherOccupation),
     ("Office Address", d.motherOfficeAddress),
     ("Distance from School", d.motherDistance),
     ("Permanent Address", d.motherPermanentAddress),
     ("Monthly Income", d.motherIncome)]

/-- Guardian rows of the part_001 renderer (this variant, unlike
`src/server.js`, has a guardian section). -/
def guardianRows (d : FormData) : List (String × String) :=
  parentRows
    [("Name", d.guardianName),
     ("Nationality", d.guardianNationality),
     ("Occupation", d.guardianOccupation),
     ("Office Address", d.guardianOfficeAddress),
     ("Distance from School", d.guardianDistance),
     ("Permanent Address", d.guardianPermanentAddress),
     ("Monthly Income", d.guardianIncome)]

/-- Photo block of the part_001 renderer: guarded by `if (photoBuffer)`
only (no length check). -/
def photoPart (p : Option PhotoBuf) : List RenderOp × Nat :=
  match p with
  | some pb => ([RenderOp.photoTitle 140, RenderOp.photoImage pb.decodable], 305)
  | none => ([], 160)

/-- The ordered drawing trace of `generatePDF` in `src/unnamed/part_001`:
like `src/server.js` but with a guardian section between mother and
academic. -/
def renderTrace (ts : String) (d : FormData) (p : Option PhotoBuf) :
    List RenderOp :=
  let ph := photoPart p
  let child := sectionPart "CHILD INFORMATION" (childRows d) ph.2
  let father := optionalSection (nameGuard d.fatherName) "FATHER DETAILS"
    (fatherRows d) child.2
  let mother := optionalSection (nameGuard d.motherName) "MOTHER DETAILS"
    (motherRows d) father.2
  let guardian := optionalSection (nameGuard d.guardianName) "GUARDIAN DETAILS"
    (guardianRows d) mother.2
  let acad := sectionPart "ACADEMIC INFORMATION" (academicRows d) guardian.2
  RenderOp.header ts :: ph.1 ++ child.1 ++ father.1 ++ mother.1 ++
    guardian.1 ++ acad.1

end P1

/-- Concrete submission driving the academic table past the threshold:
father contributes 3 rows and mother 4, so the academic section's check
sees cursor 695 ≤ 700, yet its table starts at 720. -/
def c6Data : FormData :=
  { sampleAdmission with
    fatherName := some "Ravi"
    fatherNationality := some "Indian"
    fatherOccupation := some "Farmer"
    motherName := some "Meena"
    motherNationality := some "Indian"
    motherOccupation := some "Teacher"
    motherIncome := some "10000" }

/-- Response a handler sends: HTTP 200 success (message plus optional
fallback reference), 400 client error, or 500 server error. -/
inductive Resp where
  | success (message : String) (reference : Option String)
  | clientError (message : String)
  | serverError (message : String)
  deriving DecidableEq, Repr

/-- `true` exactly on the 200-success responses. -/
def Resp.isSuccess : Resp → Bool
  | Resp.success _ _ => true
  | _ => false

/-- `true` exactly on the 400 client-error responses. -/
def Resp.isClientError : Resp → Bool
  | Resp.clientError _ => true
  | _ => false

/-- Outcomes of the external effects during one admission request, fixed
ahead of the run: transport availability, whether `sendMail` resolves
within its timeout race, whether each `generatePDF` / `saveFormToFile`
call succeeds (the `Retry` pair is for the calls repeated inside the
`catch` block of `src/server.js`), and the `Date.now()` clock. -/
structure AdmEnv where
  transporter : Bool
  sendOk : Bool
  pdfOk : Bool
  saveOk : Bool
  pdfRetryOk : Bool
  saveRetryOk : Bool
  now : Nat
  deriving DecidableEq, Repr

/-- Observable outcome of one admission request: the response together
with which effects actually happened. -/
structure AdmResult where
  resp : Resp
  renderAttempted : Bool
  deliveryAttempted : Bool
  delivered : Bool
  fallbackWritten : Bool
  deriving DecidableEq, Repr

/-- `path.basename(savedPath)` for a saved admission — the fallback
reference `admission_<sanitized child name>_<Date.now()>`. -/
def referenceOf (now : Nat) (d : FormData) : String :=
  "admission_" ++ sanitizeName (jsOr d.childName "") ++ "_" ++ toString now

/-- Outcomes of the external effects during one contact request;
`saveRetryOk` is the JSON write attempted inside a `catch` block. -/
structure ContactEnv where
  transporter : Bool
  sendOk : Bool
  saveOk : Bool
  saveRetryOk : Bool
  deriving DecidableEq, Repr

/-- Observable outcome of one contact request. -/
structure ContactResult where
  resp : Resp
  deliveryAttempted : Bool
  delivered : Bool
  fallbackWritten : Bool
  deriving DecidableEq, Repr

/-- `!name || !email || !phone || !message` — contact required-field check. -/
def contactValid (c : ContactData) : Bool :=
  truthy c.name && truthy c.email && truthy c.phone && truthy c.message

namespace S

/-- The `catch` block of the admission endpoint in `src/server.js`:
regenerate the PDF and save to the fallback store; if both succeed the
response is still a 200 success carrying the fallback reference,
otherwise a 500. -/
def admissionCatch (env : AdmEnv) (d : FormData) : AdmResult :=
  if env.pdfRetryOk && env.saveRetryOk then
    { resp := Resp.success "Application received! We will contact you soon."
        (some (referenceOf env.now d))
      renderAttempted := true
      deliveryAttempted := env.transporter
      delivered := false
      fallbackWritten := true }
  else
    { resp := Resp.serverError "Failed to process. Please try again or call us."
      renderAttempted := true
      deliveryAttempted := env.transporter
      delivered := false
      fallbackWritten := false }

/-- `app.post('/api/admission')` in `src/server.js`: validate, render the
PDF, then — only when no transporter was adopted — save to the fallback
store; otherwise attempt delivery and recover in the `catch` block when
the send fails or times out. -/
def admissionHandler (env : AdmEnv) (d : FormData) : AdmResult :=
  if missingOf d ≠ [] then
    { resp := Resp.clientError
        ("Missing fields: " ++ String.intercalate ", " (missingOf d))
      renderAttempted := false
      deliveryAttempted := false
      delivered := false
      fallbackWritten := false }
  else if !env.pdfOk then
    { resp := Resp.serverError "Failed to generate form. Please try again."
      renderAttempted := true
      deliveryAttempted := false
      delivered := false
      fallbackWritten := false }
  else if !env.transporter then
    if env.saveOk then
      { resp := Resp.success "Application received! We will process it shortly."
          (some (referenceOf env.now d))
        renderAttempted := true
        deliveryAttempted := false
        delivered := false
        fallbackWritten := true }
    else admissionCatch { env with transporter := false } d
  else if env.sendOk then
    { resp := Resp.success "Application submitted successfully!" none
      renderAttempted := true
      deliveryAttempted := true
      delivered := true
      fallbackWritten := false }
  else admissionCatch env d

/-- `app.post('/api/contact')` in `src/server.js`: validate, then either
save a JSON record (no transporter) or send; a send failure lands in the
`catch` block, which returns a 500 with no fallback write. -/
def contactHandler (env : ContactEnv) (c : ContactData) : ContactResult :=
  if !contactValid c then
    { resp := Resp.clientError "All fields are required"
      deliveryAttempted := false, delivered := false, fallbackWritten := false }
  else if !matchesEmail (jsOr c.email "") then
    { resp := Resp.clientError "Invalid email format"
      deliveryAttempted := false, delivered := false, fallbackWritten := false }
  else if !env.transporter then
    if env.saveOk then
      { resp := Resp.success "Message received! We will contact you soon." none
        deliveryAttempted := false, delivered := false, fallbackWritten := true }
    else
      { resp := Resp.serverError "Failed to send message. Please try again."
        deliveryAttempted := false, delivered := false, fallbackWritten := false }
  else if env.sendOk then
    { resp := Resp.success "Message sent successfully!" none
      deliveryAttempted := true, delivered := true, fallbackWritten := false }
  else
    { resp := Resp.serverError "Failed to send message. Please try again."
      deliveryAttempted := true, delivered := false, fallbackWritten := false }

end S

namespace V2

/-- Events of the part_002 admission handler, in program order. -/
inductive Ev where
  | fallbackSave
  | deliveryAttempt
  deriving DecidableEq, Repr

/-- Observable outcome of one part_002 admission request, with the ordered
effect trace. -/
structure AdmResult where
  resp : Resp
  renderAttempted : Bool
  delivered : Bool
  fallbackWritten : Bool
  events : List Ev
  deriving DecidableEq, Repr

/-- `app.post('/api/admission')` in `src/unnamed/part_002` (the
write-then-attempt-send variant): validate, render, ALWAYS save to the
fallback store, then attempt delivery best-effort (errors swallowed) and
answer 200 with the fallback reference. -/
def admissionHandler (env : AdmEnv) (d : FormData) : AdmResult :=
  if missingOf d ≠ [] then
    { resp := Resp.clientError
        ("Missing fields: " ++ String.intercalate ", " (missingOf d))
      renderAttempted := false, delivered := false, fallbackWritten := false
      events := [] }
  else if !env.pdfOk then
    { resp := Resp.serverError "Failed to generate form. Please try again."
      renderAttempted := true, delivered := false, fallbackWritten := false
      events := [] }
  else if !env.saveOk then
    -- `saveFormToFile` threw; the outer catch answers 500.
    { resp := Resp.serverError "Failed to process. Please try again or call us."
      renderAttempted := true, delivered := false, fallbackWritten := false
      events := [] }
  else
    { resp := Resp.success "Application received! We will contact you soon."
        (some (referenceOf env.now d))
      renderAttempted := true
      delivered := env.transporter && env.sendOk
      fallbackWritten := true
      events := Ev.fallbackSave ::
        (if env.transporter then [Ev.deliveryAttempt] else []) }

/-- `app.post('/api/contact')` in `src/unnamed/part_002` (the
fallback-on-error variant): like `src/server.js` except that the `catch`
block saves the submission as a JSON record and still answers 200. -/
def contactHandler (env : ContactEnv) (c : ContactData) : ContactResult :=
  if !contactValid c then
    { resp := Resp.clientError "All fields are required"
      deliveryAttempted := false, delivered := false, fallbackWritten := false }
  else if !matchesEmail (jsOr c.email "") then
    { resp := Resp.clientError "Invalid email format"
      deliveryAttempted := false, delivered := false, fallbackWritten := false }
  else if !env.transporter then
    if env.saveOk then
      { resp := Resp.success "Message received! We will contact you soon." none
        deliveryAttempted := false, delivered := false, fallbackWritten := true }
    else if env.saveRetryOk then
      { resp := Resp.success "Message received! We will contact you soon." none
        deliveryAttempted := false, delivered := false, fallbackWritten := true }
    else
      { resp := Resp.serverError "Failed to send message. Please try again."
        deliveryAttempted := false, delivered := false, fallbackWritten := false }
  else if env.sendOk then
    { resp := Resp.success "Message sent successfully!" none
      deliveryAttempted := true, delivered := true, fallbackWritten := false }
  else if env.saveRetryOk then
    { resp := Resp.success "Message received! We will contact you soon." none
      deliveryAttempted := true, delivered := false, fallbackWritten := true }
  else
    { resp := Resp.serverError "Failed to send message. Please try again."
      deliveryAttempted := true, delivered := false, fallbackWritten := false }

end V2

/-- One SMTP transport candidate from the `emailConfigs` array. -/
structure EmailConfig where
  name : String
  host : String
  port : Nat
  secure : Bool
  deriving DecidableEq, Repr

/-- The three hardcoded candidates of `src/server.js`, in priority order. -/
def emailConfigs : List EmailConfig :=
  [{ name := "Gmail 587", host := "smtp.gmail.com", port := 587, secure := false },
   { name := "Gmail 465", host := "smtp.gmail.com", port := 465, secure := true },
   { name := "Gmail 25", host := "smtp.gmail.com", port := 25, secure := false }]

/-- The `setTimeout(..., 10000)` bound each `verify()` is raced against. -/
def probeTimeoutMs : Nat := 10000

/-- Outcome of one connectivity probe: the `verify()` resolves, rejects,
or the 10-second race rejects first. -/
inductive ProbeOutcome where
  | ok
  | fail
  | timedOut
  deriving DecidableEq, Repr

/-- `findWorkingConfig` from `src/server.js`: walk the candidates in order
and adopt the first whose probe succeeds; `none` when every candidate's
probe fails or times out. -/
def findWorkingConfig (probe : EmailConfig → ProbeOutcome) :
    List EmailConfig → Option EmailConfig
  | [] => none
  | c :: rest =>
    if probe c = ProbeOutcome.ok then some c else findWorkingConfig probe rest

/-- The startup IIFE: `transporter` is set iff some candidate probed ok. -/
def startupTransporter (probe : EmailConfig → ProbeOutcome) : Bool :=
  (findWorkingConfig probe emailConfigs).isSome

/-- A valid contact submission used in concrete witnesses. -/
def sampleContact : ContactData where
  name := some "John"
  email := some "john@example.com"
  phone := some "9000000001"
  message := some "Hello"

/-- Map a render trace to the trace with the stamped timestamp erased. -/
def stripStamp (ops : List RenderOp) : List RenderOp :=
  ops.map fun op => match op with
    | RenderOp.header _ => RenderOp.header ""
    | o => o

/-- The relative-group fields of the admission form. -/
inductive ParentField where
  | pname
  | nationality
  | occupation
  | officeAddress
  | distance
  | permanentAddress
  | income
  deriving DecidableEq, Repr

/-- Overwrite one father-group field of a submission. -/
def setFather (d : FormData) : ParentField → Option String → FormData
  | ParentField.pname, v => { d with fatherName := v }
  | ParentField.nationality, v => { d with fatherNationality := v }
  | ParentField.occupation, v => { d with fatherOccupation := v }
  | ParentField.officeAddress, v => { d with fatherOfficeAddress := v }
  | ParentField.distance, v => { d with fatherDistance := v }
  | ParentField.permanentAddress, v => { d with fatherPermanentAddress := v }
  | ParentField.income, v => { d with fatherIncome := v }

/-- Overwrite one mother-group field of a submission. -/
def setMother (d : FormData) : ParentField → Option String → FormData
  | ParentField.pname, v => { d with motherName := v }
  | ParentField.nationality, v => { d with motherNationality := v }
  | ParentField.occupation, v => { d with motherOccupation := v }
  | ParentField.officeAddress, v => { d with motherOfficeAddress := v }
  | ParentField.distance, v => { d with motherDistance := v }
  | ParentField.permanentAddress, v => { d with motherPermanentAddress := v }
  | ParentField.income, v => { d with motherIncome := v }

/-- The all-fail probe (every candidate rejects its connectivity check). -/
def probeAllFail : EmailConfig → ProbeOutcome := fun _ => ProbeOutcome.fail

/-- Submission whose guardian has a non-empty name (only meaningful to the
part_001 renderer; `src/server.js` ignores guardian fields entirely). -/
def c3Data : FormData := { sampleAdmission with guardianName := some "Ganesh" }

/-- Environment of a run with no adopted transport and healthy storage. -/
def envNoTransport : AdmEnv :=
  { transporter := false, sendOk := false, pdfOk := true, saveOk := true,
    pdfRetryOk := true, saveRetryOk := true, now := 0 }

/-- Environment of a run with a working transport and a successful send. -/
def envSendOk : AdmEnv :=
  { transporter := true, sendOk := true, pdfOk := true, saveOk := true,
    pdfRetryOk := true, saveRetryOk := true, now := 0 }

/-- Environment of a run with a working transport whose send fails. -/
def envSendFail : AdmEnv :=
  { transporter := true, sendOk := false, pdfOk := true, saveOk := true,
    pdfRetryOk := true, saveRetryOk := true, now := 0 }

/-- Contact environment: transport adopted, send fails, storage healthy. -/
def cEnvSendFail : ContactEnv :=
  { transporter := true, sendOk := false, saveOk := true, saveRetryOk := true }

/-- C1: for every admission submission, if the admission endpoint of
`src/server.js` responds with success, then either the email was delivered
or a fallback record was written to durable storage — never neither. -/
theorem C1_success_implies_delivered_or_fallback (env : AdmEnv) (d : FormData)
    (h : (S.admissionHandler env d).resp.isSuccess = true) :
    (S.admissionHandler env d).delivered = true ∨
    (S.admissionHandler env d).fallbackWritten = true := by
  unfold S.admissionHandler S.admissionCatch at h ⊢
  split_ifs at h ⊢ <;> simp_all [Resp.isSuccess]

/-- Witness for C1 at a concrete run: no transport, fallback write succeeds. -/
theorem C1_witness :
    (S.admissionHandler envNoTransport sampleAdmission).resp.isSuccess = true ∧
    ((S.admissionHandler envNoTransport sampleAdmission).delivered = true ∨
     (S.admissionHandler envNoTransport sampleAdmission).fallbackWritten = true) :=
  ⟨by decide,
   C1_success_implies_delivered_or_fallback envNoTransport sampleAdmission
     (by decide)⟩

/-- C2 counterexample: in `src/server.js`, a valid admission request with a
working transport and successful delivery responds success without any
fallback write — persistence is NOT unconditional. -/
theorem C2_counterexample :
    (S.admissionHandler envSendOk sampleAdmission).resp.isSuccess = true ∧
    (S.admissionHandler envSendOk sampleAdmission).fallbackWritten = false := by
  constructor <;> decide

/-- C2 amended: the write-then-attempt-send orchestrator of
`src/unnamed/part_002` persists every valid admission submission whose
render and fallback write succeed, before any delivery attempt and
regardless of transport availability or delivery outcome, and responds
success with the fallback reference. -/
theorem C2_amended_write_then_send (env : AdmEnv) (d : FormData)
    (hm : missingOf d = []) (hp : env.pdfOk = true) (hs : env.saveOk = true) :
    (V2.admissionHandler env d).fallbackWritten = true ∧
    (V2.admissionHandler env d).resp =
      Resp.success "Application received! We will contact you soon."
        (some (referenceOf env.now d)) ∧
    (V2.admissionHandler env d).events.head? = some V2.Ev.fallbackSave := by
  unfold V2.admissionHandler
  simp [hm, hp, hs]

/-- Witness for C2's amended claim: transport up but the send fails, and
the fallback record was nevertheless written first. -/
theorem C2_amended_witness :
    (V2.admissionHandler envSendFail sampleAdmission).fallbackWritten = true ∧
    (V2.admissionHandler envSendFail sampleAdmission).resp =
      Resp.success "Application received! We will contact you soon."
        (some (referenceOf envSendFail.now sampleAdmission)) ∧
    (V2.admissionHandler envSendFail sampleAdmission).events.head? =
      some V2.Ev.fallbackSave :=
  C2_amended_write_then_send envSendFail sampleAdmission (by decide) rfl rfl

/-- C4 counterexample: in `src/server.js`, a valid contact submission whose
send fails gets a 500 error and no fallback write — delivery failure does
surface as a user-visible error there. -/
theorem C4_counterexample :
    S.contactHandler cEnvSendFail sampleContact =
      { resp := Resp.serverError "Failed to send message. Please try again.",
        deliveryAttempted := true, delivered := false,
        fallbackWritten := false } := by
  decide

/-- C4 amended: in the fallback-on-error contact endpoint of
`src/unnamed/part_002`, a valid contact submission whose delivery fails is
persisted as a JSON fallback record (when that write succeeds) and the
endpoint still responds with success. -/
theorem C4_amended_contact_fallback (env : ContactEnv) (c : ContactData)
    (hv : contactValid c = true)
    (he : matchesEmail (jsOr c.email "") = true)
    (ht : env.transporter = true) (hs : env.sendOk = false)
    (hr : env.saveRetryOk = true) :
    (V2.contactHandler env c).resp.isSuccess = true ∧
    (V2.contactHandler env c).fallbackWritten = true := by
  unfold V2.contactHandler
  simp [hv, he, ht, hs, hr, Resp.isSuccess]

/-- Witness for C4's amended claim at a concrete failed-send contact run. -/
theorem C4_amended_witness :
    (V2.contactHandler cEnvSendFail sampleContact).resp.isSuccess = true ∧
    (V2.contactHandler cEnvSendFail sampleContact).fallbackWritten = true :=
  C4_amended_contact_fallback cEnvSendFail sampleContact (by decide) (by decide)
    rfl rfl rfl

/-- C5: an admission submission with a missing required field gets a 400
listing exactly the missing required fields, and no render, delivery
attempt or fallback write happens; the missing-list contains a field name
iff it is a required field whose value is absent or empty. -/
theorem C5_missing_fields_reject (env : AdmEnv) (d : FormData)
    (h : missingOf d ≠ []) :
    S.admissionHandler env d =
      { resp := Resp.clientError
          ("Missing fields: " ++ String.intercalate ", " (missingOf d)),
        renderAttempted := false, deliveryAttempted := false,
        delivered := false, fallbackWritten := false } ∧
    ∀ f, f ∈ missingOf d ↔ f ∈ requiredFields ∧ truthy (getField d f) = false := by
  constructor
  · unfold S.admissionHandler
    simp [h]
  · intro f
    simp [missingOf, List.mem_filter]

/-- Witness for C5: a submission missing only `childName`. -/
theorem C5_witness :
    S.admissionHandler envSendOk { sampleAdmission with childName := none } =
      { resp := Resp.clientError
          ("Missing fields: " ++ String.intercalate ", "
            (missingOf { sampleAdmission with childName := none })),
        renderAttempted := false, deliveryAttempted := false,
        delivered := false, fallbackWritten := false } ∧
    ∀ f, f ∈ missingOf { sampleAdmission with childName := none } ↔
      f ∈ requiredFields ∧
      truthy (getField { sampleAdmission with childName := none } f) = false :=
  C5_missing_fields_reject envSendOk { sampleAdmission with childName := none }
    (by decide)

/-- C9: a contact submission whose email does not match the basic pattern
is answered with a 400 client error by `src/server.js`, with no delivery
attempt and no fallback write. -/
theorem C9_invalid_email_reject (env : ContactEnv) (c : ContactData)
    (h : matchesEmail (jsOr c.email "") = false) :
    (S.contactHandler env c).resp.isClientError = true ∧
    (S.contactHandler env c).deliveryAttempted = false ∧
    (S.contactHandler env c).fallbackWritten = false := by
  unfold S.contactHandler
  by_cases hv : contactValid c = true
  · simp [hv, h, Resp.isClientError]
  · simp only [Bool.not_eq_true] at hv
    simp [hv, Resp.isClientError]

/-- Witness for C9 at the spec's own example email `"not-an-email"`. -/
theorem C9_witness :
    (S.contactHandler cEnvSendFail
      { sampleContact with email := some "not-an-email" }).resp.isClientError
        = true ∧
    (S.contactHandler cEnvSendFail
      { sampleContact with email := some "not-an-email" }).deliveryAttempted
        = false ∧
    (S.contactHandler cEnvSendFail
      { sampleContact with email := some "not-an-email" }).fallbackWritten
        = false :=
  C9_invalid_email_reject cEnvSendFail
    { sampleContact with email := some "not-an-email" } (by decide)

lemma tableCount_append (a b : List RenderOp) :
    tableCount (a ++ b) = tableCount a + tableCount b := by
  simp [tableCount, List.filter_append]

lemma tableCount_cons_header (ts : String) (l : List RenderOp) :
    tableCount (RenderOp.header ts :: l) = tableCount l := by
  simp [tableCount, List.filter_cons, isTableOp]

lemma tableCount_checkBreak (y : Nat) : tableCount (checkBreak y).1 = 0 := by
  unfold checkBreak
  split <;> rfl

lemma tableCount_sectionPart (t : String) (rows : List (String × String))
    (y : Nat) : tableCount (sectionPart t rows y).1 = 1 := by
  simp only [sectionPart]
  rw [tableCount_append, tableCount_checkBreak]
  rfl

lemma tableCount_optionalSection (g : Bool) (t : String)
    (rows : List (String × String)) (y : Nat) :
    tableCount (optionalSection g t rows y).1 =
      if g = true ∧ rows ≠ [] then 1 else 0 := by
  cases g with
  | false => simp [optionalSection, tableCount]
  | true =>
    by_cases hr : rows = []
    · simp only [optionalSection, hr, if_true]
      rw [if_neg (by simp), tableCount_append, tableCount_checkBreak]
      simp [tableCount, isTableOp]
    · simp only [optionalSection, if_true]
      rw [if_pos hr, tableCount_append, tableCount_checkBreak]
      simp [hr, tableCount, isTableOp, List.filter]

lemma tableCount_photoPartS (p : Option PhotoBuf) :
    tableCount (S.photoPart p).1 = 0 := by
  cases p with
  | none => rfl
  | some pb =>
    by_cases h : 0 < pb.len
    · simp only [S.photoPart, if_pos h]
      rfl
    · simp only [S.photoPart, if_neg h]
      rfl

lemma tableCount_photoPartP1 (p : Option PhotoBuf) :
    tableCount (P1.photoPart p).1 = 0 := by
  cases p <;> rfl

lemma parentRows_name_ne_nil (v : Option String)
    (rest : List (String × Option String)) (h : nameGuard v = true) :
    P1.parentRows (("Name", v) :: rest) ≠ [] := by
  cases v with
  | none => simp [nameGuard] at h
  | some s =>
    simp [nameGuard] at h
    simp [P1.parentRows, List.filterMap_cons, h]

lemma fatherRowsP1_ne_nil (d : FormData) (h : nameGuard d.fatherName = true) :
    P1.fatherRows d ≠ [] :=
  parentRows_name_ne_nil d.fatherName _ h

lemma motherRowsP1_ne_nil (d : FormData) (h : nameGuard d.motherName = true) :
    P1.motherRows d ≠ [] :=
  parentRows_name_ne_nil d.motherName _ h

lemma guardianRowsP1_ne_nil (d : FormData)
    (h : nameGuard d.guardianName = true) : P1.guardianRows d ≠ [] :=
  parentRows_name_ne_nil d.guardianName _ h

lemma ite_guard_rows (g : Bool) (rows : List (String × String))
    (hne : g = true → rows ≠ []) :
    (if g = true ∧ rows ≠ [] then (1 : Nat) else 0) =
      (if g = true then (1 : Nat) else 0) := by
  by_cases hg : g = true
  · simp [hg, hne hg]
  · simp [hg]

/-- C3 counterexample: a valid submission with a non-empty guardian name —
the claim predicts 3 table sections, but `generatePDF` in `src/server.js`
has no guardian section and emits only 2. -/
theorem C3_counterexample :
    nameGuard c3Data.guardianName = true ∧
    tableCount (S.renderTrace "T" c3Data none) = 2 := by
  constructor <;> decide

/-- C3 amended: in `src/server.js` the table-section count is 2 plus one
per father/mother group whose name passes the guard AND whose filtered
row list is non-empty (guardian never contributes); in the
`src/unnamed/part_001` variant the count is 2 plus one per
father/mother/guardian group with a non-empty (after trimming) name, as
the claim stated. -/
theorem C3_amended_table_section_count (ts : String) (d : FormData)
    (p : Option PhotoBuf) :
    tableCount (S.renderTrace ts d p) =
      2 + (if nameGuard d.fatherName = true ∧ S.fatherRows d ≠ [] then 1 else 0)
        + (if nameGuard d.motherName = true ∧ S.motherRows d ≠ [] then 1 else 0) ∧
    tableCount (P1.renderTrace ts d p) =
      2 + (if nameGuard d.fatherName = true then 1 else 0)
        + (if nameGuard d.motherName = true then 1 else 0)
        + (if nameGuard d.guardianName = true then 1 else 0) := by
  constructor
  · unfold S.renderTrace
    simp only [tableCount_cons_header, tableCount_append, tableCount_sectionPart,
      tableCount_optionalSection, tableCount_photoPartS]
    split_ifs <;> omega
  · unfold P1.renderTrace
    simp only [tableCount_cons_header, tableCount_append, tableCount_sectionPart,
      tableCount_optionalSection, tableCount_photoPartP1]
    rw [ite_guard_rows _ _ (fatherRowsP1_ne_nil d),
      ite_guard_rows _ _ (motherRowsP1_ne_nil d),
      ite_guard_rows _ _ (guardianRowsP1_ne_nil d)]
    split_ifs <;> omega

lemma titleYs_append (a b : List RenderOp) :
    titleYs (a ++ b) = titleYs a ++ titleYs b := by
  simp [titleYs]

lemma titleYs_cons_header (ts : String) (l : List RenderOp) :
    titleYs (RenderOp.header ts :: l) = titleYs l := by
  simp [titleYs, List.filterMap_cons, titleYOf]

lemma titleYs_checkBreak (y : Nat) : titleYs (checkBreak y).1 = [] := by
  unfold checkBreak
  split <;> rfl

lemma checkBreak_snd_le (y : Nat) : (checkBreak y).2 ≤ 700 := by
  unfold checkBreak
  split
  · simp
  · next h =>
    simp only []
    omega

lemma titleYs_sectionPart (t : String) (rows : List (String × String))
    (y : Nat) : titleYs (sectionPart t rows y).1 = [(checkBreak y).2] := by
  simp only [sectionPart]
  rw [titleYs_append, titleYs_checkBreak]
  rfl

lemma titleYs_optionalSection (g : Bool) (t : String)
    (rows : List (String × String)) (y : Nat) :
    titleYs (optionalSection g t rows y).1 =
      if g = true then [(checkBreak y).2] else [] := by
  cases g with
  | false => simp [optionalSection, titleYs]
  | true =>
    by_cases hr : rows = []
    · simp only [optionalSection, hr, if_true]
      rw [if_neg (by simp), titleYs_append, titleYs_checkBreak]
      simp [titleYs, titleYOf]
    · simp only [optionalSection, if_true]
      rw [if_pos hr, titleYs_append, titleYs_checkBreak]
      simp [titleYs, titleYOf]

lemma titleYs_photoPartS (p : Option PhotoBuf) :
    titleYs (S.photoPart p).1 = [] := by
  cases p with
  | none => rfl
  | some pb =>
    by_cases h : 0 < pb.len
    · simp only [S.photoPart, if_pos h]
      rfl
    · simp only [S.photoPart, if_neg h]
      rfl

/-- C6 counterexample: with a 3-row father group and a 4-row mother group
the academic check sees cursor 695 and inserts no break, so the academic
table starts at 720 — beyond the threshold — and the whole trace contains
no page break. -/
theorem C6_counterexample :
    tableYs (S.renderTrace "T" c6Data none) = [185, 405, 550, 720] ∧
    hasPageBreak (S.renderTrace "T" c6Data none) = false := by
  constructor <;> decide

/-- C6 amended: the `currentY > 700` check runs before each SECTION TITLE
only (resetting the cursor to 50 when it fires), so every section title
starts at or above the threshold line — but tables are emitted 25 units
below their title with no fresh check and can start past 700. -/
theorem C6_amended_title_break_invariant (ts : String) (d : FormData)
    (p : Option PhotoBuf) :
    ((titleYs (S.renderTrace ts d p)).all fun y => decide (y ≤ 700)) = true ∧
    ∀ y, checkBreak y =
      if 700 < y then ([RenderOp.pageBreak], 50) else ([], y) := by
  constructor
  · unfold S.renderTrace
    simp only [titleYs_cons_header, titleYs_append, titleYs_sectionPart,
      titleYs_optionalSection, titleYs_photoPartS]
    split_ifs <;>
      simp [List.all_append, List.all_cons, decide_eq_true_eq, checkBreak_snd_le]
  · intro y
    rfl

/-- C7: the renderer of `src/server.js` is deterministic modulo the stamped
timestamp — traces of two runs on the same submission and photo agree once
the timestamp in the header is erased; no other drawing command depends on
the clock. -/
theorem C7_deterministic_modulo_stamp (ts1 ts2 : String) (d : FormData)
    (p : Option PhotoBuf) :
    stripStamp (S.renderTrace ts1 d p) = stripStamp (S.renderTrace ts2 d p) := by
  unfold S.renderTrace stripStamp
  simp

lemma findWorkingConfig_some_spec (probe : EmailConfig → ProbeOutcome) :
    ∀ (cs : List EmailConfig) (c : EmailConfig),
      findWorkingConfig probe cs = some c →
      probe c = ProbeOutcome.ok ∧
      ∃ pre post, cs = pre ++ c :: post ∧
        ∀ c2 ∈ pre, probe c2 ≠ ProbeOutcome.ok := by
  intro cs
  induction cs with
  | nil =>
    intro c h
    simp [findWorkingConfig] at h
  | cons a rest ih =>
    intro c h
    unfold findWorkingConfig at h
    by_cases ha : probe a = ProbeOutcome.ok
    · rw [if_pos ha] at h
      injection h with h
      subst h
      exact ⟨ha, [], rest, rfl, by simp⟩
    · rw [if_neg ha] at h
      obtain ⟨hok, pre, post, hc, hall⟩ := ih c h
      refine ⟨hok, a :: pre, post, by simp [hc], ?_⟩
      intro c2 hc2
      rcases List.mem_cons.mp hc2 with rfl | hm
      · exact ha
      · exact hall c2 hm

lemma findWorkingConfig_none_iff (probe : EmailConfig → ProbeOutcome) :
    ∀ cs : List EmailConfig,
      findWorkingConfig probe cs = none ↔
      ∀ c ∈ cs, probe c ≠ ProbeOutcome.ok := by
  intro cs
  induction cs with
  | nil => simp [findWorkingConfig]
  | cons a rest ih =>
    unfold findWorkingConfig
    by_cases ha : probe a = ProbeOutcome.ok
    · simp [ha]
    · simp [ha, ih]

/-- C8: the startup prober adopts the first candidate (in the fixed
priority order of `emailConfigs`) whose 10-second-bounded connectivity
check succeeds; when every probe fails or times out the transporter stays
`none`, and an admission request in that state takes the file-storage
fallback path. -/
theorem C8_probe_first_working_config (probe : EmailConfig → ProbeOutcome) :
    probeTimeoutMs = 10000 ∧
    (∀ c, findWorkingConfig probe emailConfigs = some c →
       probe c = ProbeOutcome.ok ∧
       ∃ pre post, emailConfigs = pre ++ c :: post ∧
         ∀ c2 ∈ pre, probe c2 ≠ ProbeOutcome.ok) ∧
    (findWorkingConfig probe emailConfigs = none ↔
       ∀ c ∈ emailConfigs, probe c ≠ ProbeOutcome.ok) ∧
    (∀ (env : AdmEnv) (d : FormData), startupTransporter probe = false →
       missingOf d = [] → env.pdfOk = true → env.saveOk = true →
       (S.admissionHandler { env with transporter := startupTransporter probe }
         d).fallbackWritten = true ∧
       (S.admissionHandler { env with transporter := startupTransporter probe }
         d).delivered = false) := by
  refine ⟨rfl, fun c h => findWorkingConfig_some_spec probe emailConfigs c h,
    findWorkingConfig_none_iff probe emailConfigs, ?_⟩
  intro env d hst hm hp hs
  unfold S.admissionHandler
  simp [hst, hm, hp, hs]

/-- Witness for C8: with every probe failing, no transport is adopted and a
valid admission request is persisted to file storage, not delivered. -/
theorem C8_witness :
    startupTransporter probeAllFail = false ∧
    (S.admissionHandler
      { envNoTransport with transporter := startupTransporter probeAllFail }
      sampleAdmission).fallbackWritten = true ∧
    (S.admissionHandler
      { envNoTransport with transporter := startupTransporter probeAllFail }
      sampleAdmission).delivered = false :=
  ⟨by decide,
   ((C8_probe_first_working_config probeAllFail).2.2.2 envNoTransport
     sampleAdmission (by decide) (by decide) rfl rfl).1,
   ((C8_probe_first_working_config probeAllFail).2.2.2 envNoTransport
     sampleAdmission (by decide) (by decide) rfl rfl).2⟩

/-- C10: in the father/mother row filters of `src/server.js`, a field whose
submitted value is exactly `"N/A"` produces the same filtered row list as
the absent field — the row is dropped either way. -/
theorem C10_na_value_behaves_as_absent (d : FormData) (f : ParentField) :
    S.fatherRows (setFather d f (some "N/A")) =
      S.fatherRows (setFather d f none) ∧
    S.motherRows (setMother d f (some "N/A")) =
      S.motherRows (setMother d f none) := by
  cases f <;> constructor <;>
    simp [S.fatherRows, S.motherRows, setFather, setMother, S.keepRow, jsOr,
      List.filter_cons]
